import Mathlib

/-!
Verification of the capita_library_search repository (plscrape.py and
capita_library_search.py) against its natural-language specification.

The Python source is shallowly embedded: HTML documents become an inductive
tree `Node` with the BeautifulSoup query operations the code uses (CSS
`tag.class` / `tag#id` selection over descendants in document order,
attribute lookup with a default, concatenated text content, direct element
children); code that can raise a Python exception is embedded in
`Except PyErr`; mutable global lookup tables become explicit arguments; the
network is an explicit `fetch` function argument.
-/

namespace PLScrape

/-- Python exceptions that the embedded code can raise. -/
inductive PyErr where
  | attributeError
  | typeError
  | indexError
  | keyError
  | systemExit
deriving DecidableEq, Repr

/-! ### Substring containment

`strContains s pat` models the Python expression `pat in s`. -/

def containsAux (p : List Char) : List Char → Bool
  | [] => p.isEmpty
  | c :: rest => p.isPrefixOf (c :: rest) || containsAux p rest

def strContains (s pat : String) : Bool :=
  containsAux pat.data s.data

/-- Python `str.lower()` (ASCII case folding), over the character list. -/
def pyLower (s : String) : String :=
  String.mk (s.data.map Char.toLower)

/-- Python `s.replace(' ', '+')`: every space becomes a plus sign. -/
def plusify (s : String) : String :=
  String.mk (s.data.map (fun c => if c = ' ' then '+' else c))

/-- Python `str.strip()`: drop leading and trailing whitespace. -/
def pyStrip (s : String) : String :=
  String.mk (((s.data.dropWhile Char.isWhitespace).reverse.dropWhile
    Char.isWhitespace).reverse)

/-- The whitespace-separated tokens of a character list (`acc` holds the
current token, reversed). -/
def wsTokens : List Char → List Char → List String
  | [], acc => if acc.isEmpty then [] else [String.mk acc.reverse]
  | c :: rest, acc =>
    if c.isWhitespace then
      if acc.isEmpty then wsTokens rest []
      else String.mk acc.reverse :: wsTokens rest []
    else wsTokens rest (c :: acc)

/-! ### HTML document model

`Node` models a parsed BeautifulSoup tree: an element with a tag name, an
attribute list and children, or a text node. -/

inductive Node where
  | elem (tag : String) (attrs : List (String × String)) (children : List Node)
  | text (s : String)

/-- `Tag.get(name, default)`: the attribute value, or the default. -/
def Node.getAttr : Node → String → String → String
  | .elem _ attrs _, name, dflt =>
    match attrs.find? (fun p => p.1 == name) with
    | some p => p.2
    | none => dflt
  | .text _, _, dflt => dflt

/-- Whether an element's class attribute, split on whitespace, holds the
given class token (CSS `.cls` matching). -/
def Node.hasClass (n : Node) (cls : String) : Bool :=
  (wsTokens (n.getAttr "class" "").data []).contains cls

def Node.isElem : Node → Bool
  | .elem _ _ _ => true
  | .text _ => false

def Node.tagIs (n : Node) (t : String) : Bool :=
  match n with
  | .elem tg _ _ => tg == t
  | .text _ => false

mutual

/-- All strict descendants of a node, in document (pre-) order: what a
BeautifulSoup recursive query walks. -/
def Node.descendants : Node → List Node
  | .text _ => []
  | .elem _ _ cs => descendantsList cs

def descendantsList : List Node → List Node
  | [] => []
  | c :: rest => c :: Node.descendants c ++ descendantsList rest

end

mutual

/-- `Tag.text`: the concatenated text of all descendant strings, in order. -/
def Node.textContent : Node → String
  | .text s => s
  | .elem _ _ cs => textContentList cs

def textContentList : List Node → String
  | [] => ""
  | c :: rest => c.textContent ++ textContentList rest

end

/-- `soup.select("tag.cls")`: descendant elements with the tag and class,
in document order. -/
def Node.selectClass (n : Node) (tag cls : String) : List Node :=
  n.descendants.filter (fun m => m.tagIs tag && m.hasClass cls)

/-- `soup.select("tag#id")`: descendant elements with the tag and id. -/
def Node.selectId (n : Node) (tag idv : String) : List Node :=
  n.descendants.filter (fun m => m.tagIs tag && m.getAttr "id" "" == idv)

/-- `soup.select("tag")`: descendant elements with the tag. -/
def Node.selectTag (n : Node) (tag : String) : List Node :=
  n.descendants.filter (fun m => m.tagIs tag)

/-- `soup.findAll(tag, (key, val))`: descendant elements with the tag whose
attribute `key` equals `val`. -/
def Node.findAllAttr (n : Node) (tag key val : String) : List Node :=
  n.descendants.filter (fun m =>
    m.tagIs tag &&
      match m with
      | .elem _ attrs _ =>
        match attrs.find? (fun p => p.1 == key) with
        | some p => p.2 == val
        | none => false
      | .text _ => false)

/-- `tag.find_all(recursive=False)`: the direct children that are elements. -/
def Node.childElems : Node → List Node
  | .elem _ _ cs => cs.filter Node.isElem
  | .text _ => []

/-! ### Data model (plscrape.py classes)

The field defaults mirror each class's `__init__` (CatalogueItem line 70,
BranchResultItem line 88, SearchResultItem line 113). CatalogueItem's
barcode is initialised to the integer 0 in Python and overwritten with text
when a serialNumber span is found; it is modelled as the string "0". -/

structure CatalogueItem where
  status : String
  barcode : String
  shelfmark : String
  item_type : String
deriving DecidableEq, Repr

def CatalogueItem.new : CatalogueItem :=
  { status := "", barcode := "0", shelfmark := "", item_type := "" }

/-- `CatalogueItem.is_available`: `self.status.lower() == 'available'`. -/
def CatalogueItem.is_available (c : CatalogueItem) : Bool :=
  pyLower c.status == "available"

structure BranchResultItem where
  name : String
  items : List CatalogueItem
deriving DecidableEq, Repr

def BranchResultItem.new : BranchResultItem :=
  { name := "", items := [] }

def availLoop : List CatalogueItem → Bool
  | [] => false
  | i :: rest => if i.is_available then true else availLoop rest

/-- `BranchResultItem.is_available`: the loop over `self.items` returning
True at the first available item, False when the loop ends. -/
def BranchResultItem.is_available (b : BranchResultItem) : Bool :=
  availLoop b.items

structure SearchResultItem where
  item_id : String
  link : String
  title : String
  publisher : String
  publication_date : String
  item_type : String
  summary : String
  available_at : String
  branches : List BranchResultItem
deriving DecidableEq, Repr

/-- `SearchResultItem.__init__`: every field starts at the placeholder
value given at plscrape.py lines 113-122. -/
def SearchResultItem.new : SearchResultItem :=
  { item_id := "?", link := "?", title := "?", publisher := "?",
    publication_date := "?", item_type := "?", summary := "?",
    available_at := "?", branches := [] }

/-! ### Module-level constants (plscrape.py lines 28-33) -/

def match_exact : Bool := true

def backend_id_prism : String := "prism.librarymanagementcloud.co.uk"

def backend_id_llc_sirsidynix : String := "llc.ent.sirsidynix.net.uk"

/-! ### PrismBackend -/

def PrismBackend.prism_url : String := "https://prism.librarymanagementcloud.co.uk/"

def PrismBackend.get_catalogue_url (libservice : String) : String :=
  PrismBackend.prism_url ++ libservice ++ "/"

/-- `PrismBackend.build_search_url` (plscrape.py lines 194-210): builds the
clause strings from the non-empty inputs (Python truthiness on a string is
non-emptiness), appends `+AND` exactly when `author_str` is non-empty, then
appends `author_str`. -/
def PrismBackend.build_search_url (catalogue_url title author : String) : String :=
  let title_str :=
    if title = "" then ""
    else if match_exact then "+title%3A%28%22" ++ plusify title ++ "%22%29"
    else "+title%3A%28" ++ plusify title ++ "%29"
  let author_str :=
    if author = "" then "" else "+author%3A%28" ++ plusify author ++ "%29"
  let url := catalogue_url ++ "items?query=" ++ title_str
  let url := if author_str = "" then url else url ++ "+AND"
  url ++ author_str

/-- `re.search(r'items/([0-9]+)', s)`: the leftmost occurrence of `items/`
followed by at least one digit; group 1 is the maximal digit run. -/
def findItemsIdAux : List Char → Option String
  | [] => none
  | c :: rest =>
    if "items/".data.isPrefixOf (c :: rest) then
      let ds := ((c :: rest).drop 6).takeWhile Char.isDigit
      if ds.isEmpty then findItemsIdAux rest else some (String.mk ds)
    else findItemsIdAux rest

def findItemsId (s : String) : Option String :=
  findItemsIdAux s.data

/-- The `for td in row.select('td')` loop with counter `n` in
`get_branch_result_item`: the 3rd td sets item_type, the 4th sets status,
each stripped. -/
def tdScan (n : Nat) (tds : List Node) (it : CatalogueItem) : CatalogueItem :=
  match tds with
  | [] => it
  | td :: rest =>
    let n := n + 1
    let it :=
      if n = 3 then { it with item_type := pyStrip td.textContent }
      else if n = 4 then { it with status := pyStrip td.textContent }
      else it
    tdScan n rest it

/-- `PrismBackend.get_branch_result_item` (plscrape.py lines 278-314). -/
def PrismBackend.get_branch_result_item (branch : Node) : BranchResultItem :=
  let bri := BranchResultItem.new
  let bri :=
    match branch.findAllAttr "span" "itemprop" "name" with
    | [] => bri
    | s :: _ => { bri with name := s.textContent }
  match branch.selectTag "tbody" with
  | [] => bri
  | tb :: _ =>
    { bri with
      items := (tb.selectTag "tr").map (fun row =>
        let it := CatalogueItem.new
        let it :=
          match row.findAllAttr "span" "itemprop" "serialNumber" with
          | [] => it
          | p :: _ => { it with barcode := p.textContent }
        let it :=
          match row.findAllAttr "span" "itemprop" "sku" with
          | [] => it
          | p :: _ => { it with shelfmark := p.textContent }
        tdScan 0 (row.selectTag "td") it) }

/-- One iteration of the record loop in `PrismBackend.get_search_results`
(plscrape.py lines 216-273). `fetch` stands for `simple_get` composed with
HTML parsing: `none` when `simple_get` returns None. When the detail fetch
returns None the source runs `BeautifulSoup(None, 'html.parser')`, which
raises a TypeError (bs4 cannot take None markup), so the embedding raises
`PyErr.typeError` there. -/
def PrismBackend.process_record (fetch : String → Option Node) (record : Node) :
    Except PyErr SearchResultItem := do
  let item := SearchResultItem.new
  let item := { item with link := record.getAttr "id" "NOT FOUND" }
  let item :=
    match findItemsId item.link with
    | some idStr => { item with item_id := idStr }
    | none => item
  match record.selectClass "div" "summary" with
  | [] => pure item
  | div :: _ =>
    let item :=
      match div.selectClass "h2" "title" with
      | [] => item
      | h2 :: _ =>
        match h2.selectTag "a" with
        | [] => item
        | a :: _ => { item with title := a.getAttr "title" "NOT FOUND" }
    let item :=
      match div.selectClass "div" "publisher" with
      | [] => item
      | dp :: _ =>
        match dp.selectClass "span" "publisher" with
        | [] => item
        | sp :: _ => { item with publisher := sp.textContent }
    let item :=
      match div.selectClass "div" "summarydetail" with
      | [] => item
      | ds :: _ =>
        match ds.selectClass "span" "summarydetail" with
        | [] => item
        | sp :: _ => { item with summary := sp.textContent }
    let detail ←
      match fetch item.link with
      | none => Except.error PyErr.typeError
      | some d => Except.ok d
    let item := { item with available_at := "NOT AVAILABLE" }
    let item :=
      match detail.selectId "div" "availability" with
      | [] => item
      | da :: _ =>
        let item :=
          match da.selectClass "div" "status" with
          | [] => item
          | st :: _ =>
            match st.selectClass "p" "branches" with
            | [] => item
            | pb :: _ => { item with available_at := pb.textContent }
        match da.selectClass "ul" "options" with
        | [] => item
        | ul :: _ =>
          { item with
            branches := (ul.selectTag "li").map PrismBackend.get_branch_result_item }
    pure item

/-- `PrismBackend.get_search_results` (plscrape.py lines 212-276): for each
`div#searchResults`, process each direct child element as a record,
appending each produced item. -/
def PrismBackend.get_search_results (fetch : String → Option Node) (html : Node) :
    Except PyErr (List SearchResultItem) :=
  (html.selectId "div" "searchResults").foldlM
    (fun acc sr =>
      sr.childElems.foldlM
        (fun acc2 r => do
          let it ← PrismBackend.process_record fetch r
          pure (acc2 ++ [it]))
        acc)
    []

/-! ### LLCSirsidynixBackend -/

def LLCSirsidynixBackend.sirsidynix_url : String :=
  "https://llc.ent.sirsidynix.net.uk/client/en_GB/"

def LLCSirsidynixBackend.get_catalogue_url (libservice : String) : String :=
  LLCSirsidynixBackend.sirsidynix_url ++ libservice ++ "/"

/-- `LLCSirsidynixBackend.build_search_url` (plscrape.py lines 328-347),
including the source's `&quAUTHOR%3D` author marker as written. -/
def LLCSirsidynixBackend.build_search_url (catalogue_url title author : String) : String :=
  let title_str :=
    if title = "" then ""
    else if match_exact then "&qu=TITLE%3D%22" ++ plusify title ++ "%22"
    else "&qu=TITLE%3D" ++ plusify title
  let author_str :=
    if author = "" then "" else "&quAUTHOR%3D" ++ plusify author
  let url := catalogue_url ++ "search/results?qu=" ++ title_str
  let url := if author_str = "" then url else url ++ "+" ++ author_str
  url ++ "+&h=1"

/-- `LLCSirsidynixBackend.span_div_div_text` (plscrape.py lines 407-416):
`val = '???'`; take the first `span.cls`, inside it the first `div.cls`,
inside that all `div.cls`; when that last list is non-empty the source
evaluates `div2[1].text`, which raises an IndexError when the list has
exactly one element. -/
def LLCSirsidynixBackend.span_div_div_text (html : Node) (classname : String) :
    Except PyErr String :=
  match html.selectClass "span" classname with
  | [] => Except.ok "???"
  | s :: _ =>
    match s.selectClass "div" classname with
    | [] => Except.ok "???"
    | d :: _ =>
      match d.selectClass "div" classname with
      | [] => Except.ok "???"
      | _ :: div2tail =>
        match div2tail with
        | [] => Except.error PyErr.indexError
        | second :: _ => Except.ok second.textContent

/-- One iteration of the record loop in
`LLCSirsidynixBackend.get_search_results` (plscrape.py lines 353-404). -/
def LLCSirsidynixBackend.process_record (record : Node) :
    Except PyErr SearchResultItem := do
  let item := SearchResultItem.new
  let item :=
    match record.selectClass "div" "displayDetailLink" with
    | [] => item
    | dd :: _ =>
      match dd.selectTag "a" with
      | [] => item
      | a :: _ => { item with title := a.textContent }
  let pd ← LLCSirsidynixBackend.span_div_div_text record "PUBDATE"
  let item := { item with publication_date := pd }
  let av ← LLCSirsidynixBackend.span_div_div_text record "PARENT_AVAILABLE"
  let item := { item with available_at := av }
  let item :=
    match record.selectClass "span" "formatText" with
    | [] => item
    | sf :: _ => { item with item_type := sf.textContent }
  pure item

/-- `LLCSirsidynixBackend.get_search_results` (plscrape.py lines 349-405):
for each `div#results_wrapper`, process each `div.results_cell` record. -/
def LLCSirsidynixBackend.get_search_results (html : Node) :
    Except PyErr (List SearchResultItem) :=
  (html.selectId "div" "results_wrapper").foldlM
    (fun acc w =>
      (w.selectClass "div" "results_cell").foldlM
        (fun acc2 r => do
          let it ← LLCSirsidynixBackend.process_record r
          pure (acc2 ++ [it]))
        acc)
    []

/-! ### Backend dispatch

The two backend classes are the values of `Backend`. `get_name` models
Python attribute lookup for a method named `get_name`: neither PrismBackend
nor LLCSirsidynixBackend defines one (each defines `get_id`, plscrape.py
lines 187-189 and 321-323), so the lookup raises an AttributeError. -/

inductive Backend where
  | prism
  | llcSirsidynix
deriving DecidableEq, Repr

def Backend.get_id : Backend → String
  | .prism => backend_id_prism
  | .llcSirsidynix => backend_id_llc_sirsidynix

def Backend.get_catalogue_url : Backend → String → String
  | .prism, libservice => PrismBackend.get_catalogue_url libservice
  | .llcSirsidynix, libservice => LLCSirsidynixBackend.get_catalogue_url libservice

def Backend.get_name : Backend → Except PyErr String :=
  fun _ => Except.error PyErr.attributeError

def Backend.build_search_url : Backend → String → String → String → String
  | .prism, c, t, a => PrismBackend.build_search_url c t a
  | .llcSirsidynix, c, t, a => LLCSirsidynixBackend.build_search_url c t a

def Backend.get_search_results :
    Backend → (String → Option Node) → Node → Except PyErr (List SearchResultItem)
  | .prism, fetch, html => PrismBackend.get_search_results fetch html
  | .llcSirsidynix, _, html => LLCSirsidynixBackend.get_search_results html

/-- The `library_service_backends` dict as an association list; later
config lines overwrite earlier ones, so lookup takes the last binding. -/
def lookupService (serviceMap : List (String × String)) (k : String) : Option String :=
  (serviceMap.reverse.find? (fun p => p.1 == k)).map Prod.snd

/-- `get_backend` (plscrape.py lines 449-462): unmapped service logs and
calls `exit(1)` (SystemExit); a mapped service whose backend id is neither
known id leaves `backends_dict` untouched in `init_backend`, so the final
`backends_dict[b]` raises a KeyError. -/
def get_backend (serviceMap : List (String × String)) (libservice : String) :
    Except PyErr Backend :=
  match lookupService serviceMap libservice with
  | none => Except.error PyErr.systemExit
  | some b =>
    if b = backend_id_prism then Except.ok Backend.prism
    else if b = backend_id_llc_sirsidynix then Except.ok Backend.llcSirsidynix
    else Except.error PyErr.keyError

/-! ### PLSearch -/

/-- A `PLSearch` session's attributes as `run_search` leaves them. The class
attributes (plscrape.py lines 145-151) give the starting values;
`error_message` (singular) is the extra attribute `run_search` creates on
fetch failure at line 175 — distinct from the `error_messages` list that
`show_search` reads. -/
structure PLSearch where
  title : String
  author : String
  libservice : String
  catalogue_url : String
  search_url : String
  items_found : List SearchResultItem
  error_messages : List String
  error_message : Option String
deriving DecidableEq, Repr

def PLSearch.new : PLSearch :=
  { title := "", author := "", libservice := "", catalogue_url := "",
    search_url := "", items_found := [], error_messages := [],
    error_message := none }

/-- `PLSearch.run_search` (plscrape.py lines 153-180). With both title and
author empty it logs to stdout and returns; on fetch failure it sets
`error_message` and returns; otherwise it parses and delegates to the
backend's `get_search_results`. -/
def PLSearch.run_search (serviceMap : List (String × String))
    (fetch : String → Option Node) (s : PLSearch)
    (libservice title author : String) : Except PyErr PLSearch := do
  let s := { s with libservice := libservice }
  let backend ← get_backend serviceMap s.libservice
  let s := { s with catalogue_url := backend.get_catalogue_url s.libservice,
                    title := title, author := author }
  if title = "" && author = "" then
    pure s
  else
    let s := { s with
      search_url := backend.build_search_url s.catalogue_url s.title s.author }
    match fetch s.search_url with
    | none => pure { s with error_message := some "could not get web page" }
    | some doc => do
      let items ← backend.get_search_results fetch doc
      pure { s with items_found := items }

/-! ### Backend discovery -/

/-- What `requests.get` resolves to after redirects: the final status code
and final URL. -/
structure Response where
  status_code : Nat
  url : String
deriving DecidableEq, Repr

/-- One iteration of the engine loop in `discover_catalogue` (plscrape.py
lines 588-611). A `RequestException` (`Except.error` from `fetch`) is
caught, logged and the loop moves on; a 200 response whose final URL still
holds the service id runs `site_engine_for_libservice = engine.get_name()`;
any other response only extends the report. -/
def discover_step (libservice : String) (fetch : String → Except Unit Response)
    (acc : String) (engine : Backend) : Except PyErr String :=
  match fetch (engine.get_catalogue_url libservice) with
  | Except.error _ => Except.ok acc
  | Except.ok resp =>
    if resp.status_code = 200 then
      if strContains resp.url libservice then engine.get_name
      else Except.ok acc
    else Except.ok acc

/-- `discover_catalogue` (plscrape.py lines 584-618): fold the engine loop
over the candidate backends, starting from the empty string, and return
`site_engine_for_libservice`. -/
def discover_catalogue (libservice : String) (site_backends : List Backend)
    (fetch : String → Except Unit Response) : Except PyErr String :=
  site_backends.foldlM (discover_step libservice fetch) ""

/-! ### Allocation model for list-valued attributes

Python list objects live on a heap; an attribute holding a list holds a
reference. `Heap` is the allocated list objects in allocation order (a
reference is an index); list elements are object references (`Nat`).
`halloc` models evaluating a `[]` literal, `happend` models `list.append`,
`hread` reads a list object's contents. -/

abbrev Heap : Type := List (List Nat)

def halloc (h : Heap) : Nat × Heap :=
  (List.length h, h ++ [[]])

def hread (h : Heap) (r : Nat) : List Nat :=
  (h[r]?).getD []

def happend (h : Heap) (r : Nat) (v : Nat) : Heap :=
  List.set h r (hread h r ++ [v])

/-- A `SearchResultItem` instance's list-valued attribute: `__init__` runs
`self.branches = []` (plscrape.py line 122), allocating a fresh list per
instance. -/
structure SearchResultItemObj where
  branches : Nat
deriving DecidableEq, Repr

def mkSearchResultItemObj (h : Heap) : SearchResultItemObj × Heap :=
  let (r, h2) := halloc h
  ({ branches := r }, h2)

/-- A `BranchResultItem` instance's list-valued attribute: `__init__` runs
`self.items = []` (plscrape.py line 90). -/
structure BranchResultItemObj where
  items : Nat
deriving DecidableEq, Repr

def mkBranchResultItemObj (h : Heap) : BranchResultItemObj × Heap :=
  let (r, h2) := halloc h
  ({ items := r }, h2)

/-- The `PLSearch` class object: `items_found = []` and `error_messages = []`
are class attributes (plscrape.py lines 150-151), so the two list literals
are evaluated once, when the class body runs. -/
structure PLSearchClass where
  items_found : Nat
  error_messages : Nat
deriving DecidableEq, Repr

def definePLSearchClass (h : Heap) : PLSearchClass × Heap :=
  let (r1, h2) := halloc h
  let (r2, h3) := halloc h2
  ({ items_found := r1, error_messages := r2 }, h3)

/-- A `PLSearch` instance's attribute lookups: the class defines no
`__init__`, so a fresh instance has no instance attributes and reading
`items_found` or `error_messages` falls back to the class attributes. -/
structure PLSearchObj where
  items_found : Nat
  error_messages : Nat
deriving DecidableEq, Repr

def mkPLSearchObj (cls : PLSearchClass) (h : Heap) : PLSearchObj × Heap :=
  ({ items_found := cls.items_found, error_messages := cls.error_messages }, h)

/-! ### Shared helper lemmas -/

theorem str_append_ne_empty_left (p q : String) (hp : p ≠ "") : p ++ q ≠ "" := by
  intro h
  apply hp
  have h2 := congrArg String.data h
  rw [String.data_append] at h2
  exact String.ext (List.append_eq_nil.mp h2).1

theorem containsAux_empty (b : List Char) : containsAux [] b = true := by
  induction b with
  | nil => rfl
  | cons c rest ih => simp [containsAux, List.isPrefixOf]

theorem containsAux_append_right (p a : List Char) :
    ∀ b : List Char, containsAux p b = true → containsAux p (a ++ b) = true := by
  induction a with
  | nil => intro b h; simpa using h
  | cons c rest ih =>
    intro b h
    simp only [List.cons_append, containsAux, Bool.or_eq_true]
    exact Or.inr (ih b h)

theorem isPrefixOf_extend (p s t : List Char) (h : p.isPrefixOf s = true) :
    p.isPrefixOf (s ++ t) = true := by
  induction p generalizing s with
  | nil => simp [List.isPrefixOf]
  | cons c p ih =>
    cases s with
    | nil => simp [List.isPrefixOf] at h
    | cons d s =>
      simp only [List.cons_append, List.isPrefixOf, Bool.and_eq_true] at h ⊢
      exact ⟨h.1, ih s h.2⟩

theorem containsAux_append_left (p a b : List Char) (h : containsAux p a = true) :
    containsAux p (a ++ b) = true := by
  induction a with
  | nil =>
    simp only [containsAux, List.isEmpty_iff] at h
    subst h
    exact containsAux_empty b
  | cons c rest ih =>
    simp only [containsAux, Bool.or_eq_true] at h ⊢
    cases h with
    | inl h => exact Or.inl (isPrefixOf_extend _ _ _ h)
    | inr h => exact Or.inr (ih h)

theorem strContains_append_left (s t p : String) (h : strContains s p = true) :
    strContains (s ++ t) p = true := by
  unfold strContains at h ⊢
  rw [String.data_append]
  exact containsAux_append_left _ _ _ h

theorem strContains_append_right (s t p : String) (h : strContains t p = true) :
    strContains (s ++ t) p = true := by
  unfold strContains at h ⊢
  rw [String.data_append]
  exact containsAux_append_right _ _ _ h

theorem hread_happend_ne (g : Heap) (r r2 v : Nat) (h : r ≠ r2) :
    hread (happend g r v) r2 = hread g r2 := by
  unfold hread happend
  rw [List.getElem?_set_ne h]

theorem availLoop_iff (l : List CatalogueItem) :
    availLoop l = true ↔ ∃ i ∈ l, CatalogueItem.is_available i = true := by
  induction l with
  | nil => simp [availLoop]
  | cons x rest ih =>
    simp only [availLoop]
    by_cases hx : x.is_available
    · simp [hx]
    · simp only [if_neg hx, ih, List.mem_cons]
      constructor
      · rintro ⟨i, hi, hav⟩; exact ⟨i, Or.inr hi, hav⟩
      · rintro ⟨i, hi, hav⟩
        cases hi with
        | inl he => subst he; exact absurd hav hx
        | inr hm => exact ⟨i, hm, hav⟩

/-! ### Spec-side clause definitions (refinement targets for C2)

These three definitions follow the specification's words for the Prism
query grammar: a title clause and an author clause, each present exactly
when its field is non-empty, and the `AND` connector between them. The
amended connector condition is the one the source implements: present
exactly when the author is non-empty. -/

def specTitleClause (title : String) : String :=
  if title = "" then ""
  else if match_exact then "+title%3A%28%22" ++ plusify title ++ "%22%29"
  else "+title%3A%28" ++ plusify title ++ "%29"

def specAuthorClause (author : String) : String :=
  if author = "" then "" else "+author%3A%28" ++ plusify author ++ "%29"

def specAndConnector (author : String) : String :=
  if author = "" then "" else "+AND"

/-- Case-insensitive string equality, as the spec phrases the availability
test. -/
def caseInsensitiveEq (s t : String) : Bool :=
  pyLower s == pyLower t

/-! ### Fixture documents -/

/-- A Prism results record: a direct child of `div#searchResults` whose id
attribute (used by the source as the detail link) matches `items/42`, with
a `div.summary` present so that the detail-page fetch is reached. -/
def prismFixtureRecord : Node :=
  Node.elem "div" [("id", "http://x/items/42?style")]
    [Node.elem "div" [("class", "summary")] []]

def prismFixtureDoc : Node :=
  Node.elem "html" [] [Node.elem "div" [("id", "searchResults")] [prismFixtureRecord]]

/-- A Sirsidynix record where the `span.PUBDATE > div.PUBDATE` wrapper holds
only one inner `div.PUBDATE` instead of the expected label/value pair. -/
def sirsidynixBrokenRecord : Node :=
  Node.elem "div" [("class", "results_cell")]
    [Node.elem "span" [("class", "PUBDATE")]
      [Node.elem "div" [("class", "PUBDATE")]
        [Node.elem "div" [("class", "PUBDATE")] [Node.text "2001"]]]]

def sirsidynixBrokenDoc : Node :=
  Node.elem "html" [] [Node.elem "div" [("id", "results_wrapper")] [sirsidynixBrokenRecord]]

/-- The recurring Sirsidynix field pattern:
`span.FIELD > div.FIELD > (div.FIELD label, div.FIELD value)`. -/
def sirsidynixFieldPattern (field lbl val : String) : Node :=
  Node.elem "span" [("class", field)]
    [Node.elem "div" [("class", field)]
      [Node.elem "div" [("class", field)] [Node.text lbl],
       Node.elem "div" [("class", field)] [Node.text val]]]

/-- A well-formed Sirsidynix results record with title, PUBDATE and
PARENT_AVAILABLE patterns and a format span, generic in all texts. -/
def sirsidynixFixtureRecord (t pubLbl pubVal avLbl avVal fmt : String) : Node :=
  Node.elem "div" [("class", "results_cell")]
    [Node.elem "div" [("class", "displayDetailLink")] [Node.elem "a" [] [Node.text t]],
     sirsidynixFieldPattern "PUBDATE" pubLbl pubVal,
     sirsidynixFieldPattern "PARENT_AVAILABLE" avLbl avVal,
     Node.elem "span" [("class", "formatText")] [Node.text fmt]]

def sirsidynixFixtureDoc (t pubLbl pubVal avLbl avVal fmt : String) : Node :=
  Node.elem "html" []
    [Node.elem "div" [("id", "results_wrapper")]
      [sirsidynixFixtureRecord t pubLbl pubVal avLbl avVal fmt]]

/-- A config map binding the islington service to the Prism backend id. -/
def serviceMapIslington : List (String × String) :=
  [("islington", backend_id_prism)]

/-! ### Claims -/

/-- C1. The claim says `discover_catalogue` returns the identifier of the
first backend whose fetch resolves with HTTP 200 and a final URL containing
the service id. The code instead calls `engine.get_name()`, a method neither
backend class defines, so the first such match raises an AttributeError
(first conjunct, and third conjunct after an exception on the first
backend). The other two claim parts do hold: a network exception on one
backend does not stop the loop, and with no match the function returns the
empty string rather than raising (second and fourth conjuncts). -/
theorem discover_catalogue_get_name_code_bug :
    discover_catalogue "brent" [Backend.prism]
        (fun u => Except.ok { status_code := 200, url := u }) =
      Except.error PyErr.attributeError ∧
    discover_catalogue "brent" [Backend.prism, Backend.llcSirsidynix]
        (fun _ => Except.error ()) = Except.ok "" ∧
    discover_catalogue "brent" [Backend.prism, Backend.llcSirsidynix]
        (fun u => if strContains u "prism" then Except.error ()
                  else Except.ok { status_code := 200, url := u }) =
      Except.error PyErr.attributeError ∧
    discover_catalogue "brent" [Backend.prism]
        (fun _ => Except.ok
          { status_code := 200,
            url := "https://llc.ent.sirsidynix.net.uk/client/en_GB/login" }) =
      Except.ok "" :=
  ⟨rfl, rfl, rfl, rfl⟩

/-- C2 counterexample. With an empty title and author "grossmith" the built
URL contains the literal `AND`, though not both fields are non-empty, so
the claimed "AND iff both non-empty" is false. -/
theorem build_search_url_and_without_title :
    strContains
      (PrismBackend.build_search_url
        (PrismBackend.get_catalogue_url "islington") "" "grossmith") "AND" = true ∧
    ¬(("" : String) ≠ "" ∧ ("grossmith" : String) ≠ "") := by
  constructor
  · decide
  · intro h
    exact h.1 rfl

/-- C2 amended. `build_search_url` output is exactly the catalogue URL,
`items?query=`, the title clause (present iff title is non-empty), the
`+AND` connector (present iff the author — not both fields — is non-empty)
and the author clause (present iff author is non-empty); the escaped
clauses and the connector occur in the URL whenever their field is
non-empty. -/
theorem build_search_url_clause_structure (c t a : String) :
    PrismBackend.build_search_url c t a =
      c ++ "items?query=" ++ specTitleClause t ++ specAndConnector a ++
        specAuthorClause a ∧
    (specTitleClause t = "" ↔ t = "") ∧
    (specAndConnector a = "" ↔ a = "") ∧
    (specAuthorClause a = "" ↔ a = "") ∧
    (t ≠ "" → strContains (PrismBackend.build_search_url c t a) "title%3A%28" = true) ∧
    (a ≠ "" → strContains (PrismBackend.build_search_url c t a) "author%3A%28" = true) ∧
    (a ≠ "" → strContains (PrismBackend.build_search_url c t a) "AND" = true) := by
  have hAU : ∀ x : String, x ≠ "" → ("+author%3A%28" ++ plusify x ++ "%29") ≠ "" := by
    intro x _
    exact str_append_ne_empty_left _ _ (str_append_ne_empty_left _ _ (by decide))
  have hstruct : PrismBackend.build_search_url c t a =
      c ++ "items?query=" ++ specTitleClause t ++ specAndConnector a ++
        specAuthorClause a := by
    by_cases ha : a = ""
    · simp [PrismBackend.build_search_url, specTitleClause, specAndConnector,
        specAuthorClause, ha]
    · simp only [PrismBackend.build_search_url, specTitleClause, specAndConnector,
        specAuthorClause, if_neg ha, if_neg (hAU a ha)]
  refine ⟨hstruct, ?_, ?_, ?_, ?_, ?_, ?_⟩
  · constructor
    · intro h
      by_contra ht
      apply str_append_ne_empty_left ("+title%3A%28%22" ++ plusify t) "%22%29"
        (str_append_ne_empty_left _ _ (by decide))
      simpa [specTitleClause, if_neg ht, match_exact] using h
    · intro h
      simp [specTitleClause, h]
  · constructor
    · intro h
      by_contra ha
      rw [specAndConnector, if_neg ha] at h
      exact absurd h (by decide)
    · intro h
      simp [specAndConnector, h]
  · constructor
    · intro h
      by_contra ha
      rw [specAuthorClause, if_neg ha] at h
      exact absurd h (hAU a ha)
    · intro h
      simp [specAuthorClause, h]
  · intro ht
    rw [hstruct]
    apply strContains_append_left
    apply strContains_append_left
    apply strContains_append_right
    rw [specTitleClause, if_neg ht]
    simp only [match_exact, if_pos rfl]
    apply strContains_append_left
    apply strContains_append_left
    decide
  · intro ha
    rw [hstruct]
    apply strContains_append_right
    rw [specAuthorClause, if_neg ha]
    apply strContains_append_left
    apply strContains_append_left
    decide
  · intro ha
    rw [hstruct]
    apply strContains_append_left
    apply strContains_append_right
    rw [specAndConnector, if_neg ha]
    decide

/-- C3. The claim says a result item whose detail-page fetch fails is still
returned with its availability set to a placeholder. In the code the failed
`simple_get` returns None, which is passed to BeautifulSoup and raises a
TypeError, aborting the whole call (first conjunct). The placeholder path
exists only when the fetch succeeds: with a detail page lacking
`div#availability` the item is returned with `NOT AVAILABLE` (second
conjunct), which is what the spec expected of the failure case too. -/
theorem prism_detail_fetch_failure_raises :
    PrismBackend.get_search_results (fun _ => none) prismFixtureDoc =
      Except.error PyErr.typeError ∧
    PrismBackend.get_search_results (fun _ => some (Node.elem "html" [] []))
        prismFixtureDoc =
      Except.ok [{ SearchResultItem.new with
                    item_id := "42",
                    link := "http://x/items/42?style",
                    available_at := "NOT AVAILABLE" }] :=
  ⟨rfl, rfl⟩

/-- C4. The claim says `run_search` records an error message in the
session's error-message list in both failure scenarios. The code never
touches `error_messages`: with title and author empty it only logs to
stdout and returns (first conjunct: the returned session has
`error_messages = []` and empty `items_found`), and on fetch failure it
stores the message in a new singular `error_message` attribute that
`show_search` never reads (second conjunct). The no-raise and empty
`items_found` parts of the claim do hold on these inputs. -/
theorem run_search_error_recording :
    PLSearch.run_search serviceMapIslington (fun _ => none) PLSearch.new
        "islington" "" "" =
      Except.ok { PLSearch.new with
        libservice := "islington",
        catalogue_url := PrismBackend.get_catalogue_url "islington" } ∧
    PLSearch.run_search serviceMapIslington (fun _ => none) PLSearch.new
        "islington" "diary" "" =
      Except.ok { PLSearch.new with
        libservice := "islington",
        title := "diary",
        catalogue_url := PrismBackend.get_catalogue_url "islington",
        search_url := PrismBackend.build_search_url
          (PrismBackend.get_catalogue_url "islington") "diary" "",
        error_message := some "could not get web page" } :=
  ⟨rfl, rfl⟩

/-- C5. The claim says absent or malformed markup sections never cause a
hard failure, naming the Sirsidynix span/div/div extraction with fewer
nested divs than expected. When the wrapper div holds exactly one inner
div, the non-empty list passes the source's `if div2:` guard and `div2[1]`
raises an IndexError (first conjunct), aborting the whole parse (second
conjunct). The guarded cases do default gracefully: with no matching span
the field stays at the `???` placeholder (third conjunct). -/
theorem span_div_div_single_inner_raises :
    LLCSirsidynixBackend.span_div_div_text sirsidynixBrokenRecord "PUBDATE" =
      Except.error PyErr.indexError ∧
    LLCSirsidynixBackend.get_search_results sirsidynixBrokenDoc =
      Except.error PyErr.indexError ∧
    LLCSirsidynixBackend.span_div_div_text
        (Node.elem "div" [("class", "results_cell")] []) "PUBDATE" =
      Except.ok "???" :=
  ⟨rfl, rfl, rfl⟩

/-- C6 counterexample. `PLSearch` declares `items_found` and
`error_messages` at class level, so two fresh instances resolve
`error_messages` to the same heap reference, and appending through the
first instance changes what the second instance reads (from `[]` to
`[7]`). -/
theorem plsearch_instances_share_class_lists :
    ((mkPLSearchObj (definePLSearchClass []).1 (definePLSearchClass []).2).1.error_messages =
      (mkPLSearchObj (definePLSearchClass []).1 (definePLSearchClass []).2).1.error_messages) ∧
    hread (definePLSearchClass []).2
      (mkPLSearchObj (definePLSearchClass []).1 (definePLSearchClass []).2).1.error_messages = [] ∧
    hread (happend (definePLSearchClass []).2
        (mkPLSearchObj (definePLSearchClass []).1 (definePLSearchClass []).2).1.error_messages 7)
      (mkPLSearchObj (definePLSearchClass []).1 (definePLSearchClass []).2).1.error_messages = [7] := by
  refine ⟨rfl, rfl, ?_⟩
  rfl

/-- C6 amended. `SearchResultItem` and `BranchResultItem` do assign their
list fields inside `__init__`, so any two instances (the second created on
any later, larger heap) hold distinct list references, and appending
through one leaves the list the other reads unchanged. `PLSearch` is the
exception the counterexample shows. -/
theorem item_instances_have_fresh_lists (h k : Heap) (hlt : h.length < k.length)
    (g : Heap) (v : Nat) :
    ((mkSearchResultItemObj h).1.branches ≠ (mkSearchResultItemObj k).1.branches) ∧
    hread (happend g (mkSearchResultItemObj h).1.branches v)
        (mkSearchResultItemObj k).1.branches =
      hread g (mkSearchResultItemObj k).1.branches ∧
    hread (happend g (mkSearchResultItemObj k).1.branches v)
        (mkSearchResultItemObj h).1.branches =
      hread g (mkSearchResultItemObj h).1.branches ∧
    ((mkBranchResultItemObj h).1.items ≠ (mkBranchResultItemObj k).1.items) ∧
    hread (happend g (mkBranchResultItemObj h).1.items v)
        (mkBranchResultItemObj k).1.items =
      hread g (mkBranchResultItemObj k).1.items ∧
    hread (happend g (mkBranchResultItemObj k).1.items v)
        (mkBranchResultItemObj h).1.items =
      hread g (mkBranchResultItemObj h).1.items := by
  have hne : h.length ≠ k.length := Nat.ne_of_lt hlt
  refine ⟨hne, ?_, ?_, hne, ?_, ?_⟩ <;>
    first
      | exact hread_happend_ne g _ _ v hne
      | exact hread_happend_ne g _ _ v (Ne.symm hne)

/-- C6 witness: two concrete consecutive instances. -/
theorem item_instances_have_fresh_lists_witness :
    ((mkSearchResultItemObj []).1.branches ≠ (mkSearchResultItemObj [[]]).1.branches) ∧
    hread (happend [] (mkSearchResultItemObj []).1.branches 0)
        (mkSearchResultItemObj [[]]).1.branches =
      hread [] (mkSearchResultItemObj [[]]).1.branches ∧
    hread (happend [] (mkSearchResultItemObj [[]]).1.branches 0)
        (mkSearchResultItemObj []).1.branches =
      hread [] (mkSearchResultItemObj []).1.branches ∧
    ((mkBranchResultItemObj []).1.items ≠ (mkBranchResultItemObj [[]]).1.items) ∧
    hread (happend [] (mkBranchResultItemObj []).1.items 0)
        (mkBranchResultItemObj [[]]).1.items =
      hread [] (mkBranchResultItemObj [[]]).1.items ∧
    hread (happend [] (mkBranchResultItemObj [[]]).1.items 0)
        (mkBranchResultItemObj []).1.items =
      hread [] (mkBranchResultItemObj []).1.items :=
  item_instances_have_fresh_lists [] [[]] (by decide) [] 0

/-- C7 counterexample. The claim (following the spec's example list) says
status `AVAILABLE ` with a trailing space yields true; the code compares
`status.lower()` to `available` without stripping, so it yields false. -/
theorem is_available_trailing_space_false :
    CatalogueItem.is_available
      { status := "AVAILABLE ", barcode := "0", shelfmark := "", item_type := "" } =
      false := by
  decide

/-- C7 amended. `is_available` is true iff the status case-insensitively
equals `available` with no trimming: `Available` yields true, `AVAILABLE `
with a trailing space yields false, `On Loan` yields false. -/
theorem is_available_case_insensitive (c : CatalogueItem) :
    CatalogueItem.is_available c = caseInsensitiveEq c.status "available" ∧
    CatalogueItem.is_available { c with status := "Available" } = true ∧
    CatalogueItem.is_available { c with status := "AVAILABLE " } = false ∧
    CatalogueItem.is_available { c with status := "On Loan" } = false :=
  ⟨rfl, rfl, rfl, rfl⟩

/-- C8. On a record carrying the triple-nested `span.FIELD > div.FIELD >
div.FIELD` pattern, `span_div_div_text` returns the text of the second
inner div (the value, not the first-div label) for both `PUBDATE` and
`PARENT_AVAILABLE`, and `get_search_results` stores them in the item's
publication_date and available_at fields, for all label/value texts. -/
theorem sirsidynix_takes_second_inner_div (t pubLbl pubVal avLbl avVal fmt : String) :
    LLCSirsidynixBackend.span_div_div_text
        (sirsidynixFixtureRecord t pubLbl pubVal avLbl avVal fmt) "PUBDATE" =
      Except.ok pubVal ∧
    LLCSirsidynixBackend.span_div_div_text
        (sirsidynixFixtureRecord t pubLbl pubVal avLbl avVal fmt) "PARENT_AVAILABLE" =
      Except.ok avVal ∧
    LLCSirsidynixBackend.get_search_results
        (sirsidynixFixtureDoc t pubLbl pubVal avLbl avVal fmt) =
      Except.ok [{ SearchResultItem.new with
        title := t,
        publication_date := pubVal,
        available_at := avVal,
        item_type := fmt }] := by
  have h1 : LLCSirsidynixBackend.span_div_div_text
      (sirsidynixFixtureRecord t pubLbl pubVal avLbl avVal fmt) "PUBDATE" =
      Except.ok (pubVal ++ "") := rfl
  have h2 : LLCSirsidynixBackend.span_div_div_text
      (sirsidynixFixtureRecord t pubLbl pubVal avLbl avVal fmt) "PARENT_AVAILABLE" =
      Except.ok (avVal ++ "") := rfl
  have h3 : LLCSirsidynixBackend.get_search_results
      (sirsidynixFixtureDoc t pubLbl pubVal avLbl avVal fmt) =
      Except.ok [{ SearchResultItem.new with
        title := t ++ "",
        publication_date := pubVal ++ "",
        available_at := avVal ++ "",
        item_type := fmt ++ "" }] := rfl
  rw [String.append_empty] at h1 h2
  simp only [String.append_empty] at h3
  exact ⟨h1, h2, h3⟩

/-- C9. A document with no `div#searchResults` makes the Prism
`get_search_results` return the empty list, and one with no
`div#results_wrapper` makes the Sirsidynix `get_search_results` return the
empty list; neither raises. -/
theorem get_search_results_empty_without_container
    (fetch : String → Option Node) (doc : Node) :
    (doc.selectId "div" "searchResults" = [] →
      PrismBackend.get_search_results fetch doc = Except.ok []) ∧
    (doc.selectId "div" "results_wrapper" = [] →
      LLCSirsidynixBackend.get_search_results doc = Except.ok []) := by
  constructor
  · intro h
    unfold PrismBackend.get_search_results
    rw [h]
    rfl
  · intro h
    unfold LLCSirsidynixBackend.get_search_results
    rw [h]
    rfl

/-- C9 witness: a concrete document with neither container element. -/
theorem get_search_results_empty_witness :
    PrismBackend.get_search_results (fun _ => none)
        (Node.elem "html" [] [Node.text "x"]) = Except.ok [] ∧
    LLCSirsidynixBackend.get_search_results
        (Node.elem "html" [] [Node.text "x"]) = Except.ok [] :=
  ⟨(get_search_results_empty_without_container (fun _ => none)
      (Node.elem "html" [] [Node.text "x"])).1 rfl,
   (get_search_results_empty_without_container (fun _ => none)
      (Node.elem "html" [] [Node.text "x"])).2 rfl⟩

/-- C10. `BranchResultItem.is_available` is true iff some contained
CatalogueItem is available, and is false when the item list is empty. -/
theorem branch_is_available_iff_any_item (b : BranchResultItem) :
    (BranchResultItem.is_available b = true ↔
      ∃ i ∈ b.items, CatalogueItem.is_available i = true) ∧
    BranchResultItem.is_available { b with items := [] } = false :=
  ⟨availLoop_iff b.items, rfl⟩

end PLScrape
